import Mathlib

/-!
Verification of the link (post) service and wiki service of the go-reddit
client library, shallowly embedded from `link.go` and the wiki service
surface exercised by `wiki_test.go`.

Modelling conventions:

* `url.Values` (a map built only through `Set`) is an association list with
  `urlValuesSet` replacing any previous binding of the key.
* The shared transport (`client.NewPostForm`, GET request construction and
  `client.Do`) is an abstract `Transport` record: request construction may
  fail with an error, and `Do` either fails or yields a JSON response body.
* Every service method returns a Go-faithful outcome record: the list of
  requests actually handed to `client.Do` (the network calls made), the
  returned value(s), and an optional error, mirroring Go multiple returns.
* JSON decoding of the response envelopes follows Go `encoding/json`
  semantics for the concrete target structs: unknown object fields are
  ignored, missing fields keep their zero value, `null` into a pointer
  gives `nil` (here `Option.none`), and a type mismatch is an error.
-/

namespace Geddit

/-- Errors are carried as their Go message strings. -/
abbrev Err := String

/-- A minimal JSON value type for response bodies. -/
inductive Json where
  | null : Json
  | str : String → Json
  | num : Int → Json
  | jbool : Bool → Json
  | arr : List Json → Json
  | obj : List (String × Json) → Json

/-- Look up a key in a JSON object field list; for duplicate keys the last
binding wins, as in Go `encoding/json`. -/
def jsonLookup (fields : List (String × Json)) (k : String) : Option Json :=
  (fields.reverse.find? (fun p => p.1 = k)).map (fun p => p.2)

/-- Form bodies: `url.Values` restricted to the `Set` operations the code
uses, represented as an association list. -/
abbrev Values := List (String × String)

/-- Go `url.Values.Set`: replace any existing binding of the key. -/
def urlValuesSet (form : Values) (k v : String) : Values :=
  form.filter (fun p => p.1 ≠ k) ++ [(k, v)]

/-- First bound value of a key, if any (Go `Values.Get` returns "" when the
key is absent; absence is made observable here). -/
def urlValuesGet (form : Values) (k : String) : Option String :=
  (form.find? (fun p => p.1 = k)).map (fun p => p.2)

/-- An HTTP request as the transport receives it: method, relative path and
form body. -/
structure Request where
  method : String
  path : String
  form : Values
deriving DecidableEq

/-- The shared transport dependency (`client.NewPostForm`, GET request
construction, `client.Do`). Construction either fails or deterministically
yields the request for the given path and form; `Do` either fails (network
or decode failure inside the transport is surfaced the same way) or yields
the JSON response body. -/
structure Transport where
  postFormErr : String → Values → Option Err
  getErr : String → Option Err
  doResult : Request → Except Err Json

/-- Result of `client.NewPostForm path form`. -/
def newPostForm (t : Transport) (path : String) (form : Values) :
    Except Err Request :=
  match t.postFormErr path form with
  | some e => Except.error e
  | none => Except.ok ⟨"POST", path, form⟩

/-- Result of GET request construction for a path. -/
def newGetRequest (t : Transport) (path : String) : Except Err Request :=
  match t.getErr path with
  | some e => Except.error e
  | none => Except.ok ⟨"GET", path, []⟩

/-- Outcome of a `(*Response, error)` method: the requests handed to
`client.Do` and the returned error, if any. -/
structure ActionOutcome where
  sent : List Request
  err : Option Err
deriving DecidableEq

/-- Runs the shared tail of every simple mutating method: build a POST form
request and pass it to `client.Do` with a nil decode target. -/
def runPostForm (t : Transport) (path : String) (form : Values) :
    ActionOutcome :=
  match newPostForm t path form with
  | Except.error e => ⟨[], some e⟩
  | Except.ok req =>
    match t.doResult req with
    | Except.error e => ⟨[req], some e⟩
    | Except.ok _ => ⟨[req], none⟩

/-- A newly submitted post (struct `Submitted`): id, full (type-prefixed)
id, canonical URL. -/
structure Submitted where
  ID : String
  FullID : String
  URL : String
deriving DecidableEq

/-- Options for selftext posts (struct `SubmitSelfOptions`); `none` models a
nil `*bool`. -/
structure SubmitSelfOptions where
  Subreddit : String := ""
  Title : String := ""
  Text : String := ""
  FlairID : String := ""
  FlairText : String := ""
  SendReplies : Option Bool := none
  NSFW : Bool := false
  Spoiler : Bool := false

/-- Options for link posts (struct `SubmitURLOptions`). -/
structure SubmitURLOptions where
  Subreddit : String := ""
  Title : String := ""
  URL : String := ""
  FlairID : String := ""
  FlairText : String := ""
  SendReplies : Option Bool := none
  Resubmit : Bool := false
  NSFW : Bool := false
  Spoiler : Bool := false

/-- Go bool to its string form. -/
def boolString (b : Bool) : String := if b then "true" else "false"

/-- go-querystring encoding of a string field tagged `omitempty`. -/
def encOmitEmptyStr (k v : String) : Values :=
  if v = "" then [] else [(k, v)]

/-- go-querystring encoding of a `*bool` field tagged `omitempty`. -/
def encOmitEmptyBoolPtr (k : String) : Option Bool → Values
  | none => []
  | some b => [(k, boolString b)]

/-- go-querystring encoding of a `bool` field tagged `omitempty`. -/
def encOmitEmptyBool (k : String) (b : Bool) : Values :=
  if b then [(k, boolString b)] else []

/-- `query.Values` on the wrapper struct `{SubmitSelfOptions; Kind}` built
by `SubmitSelf`, following the `url` tags of the source. -/
def encodeSubmitSelf (o : SubmitSelfOptions) (kind : String) : Values :=
  encOmitEmptyStr "sr" o.Subreddit ++
  encOmitEmptyStr "title" o.Title ++
  encOmitEmptyStr "text" o.Text ++
  encOmitEmptyStr "flair_id" o.FlairID ++
  encOmitEmptyStr "flair_text" o.FlairText ++
  encOmitEmptyBoolPtr "sendreplies" o.SendReplies ++
  encOmitEmptyBool "nsfw" o.NSFW ++
  encOmitEmptyBool "spoiler" o.Spoiler ++
  encOmitEmptyStr "kind" kind

/-- `query.Values` on the wrapper struct `{SubmitURLOptions; Kind}` built by
`SubmitURL`, following the `url` tags of the source. -/
def encodeSubmitURL (o : SubmitURLOptions) (kind : String) : Values :=
  encOmitEmptyStr "sr" o.Subreddit ++
  encOmitEmptyStr "title" o.Title ++
  encOmitEmptyStr "url" o.URL ++
  encOmitEmptyStr "flair_id" o.FlairID ++
  encOmitEmptyStr "flair_text" o.FlairText ++
  encOmitEmptyBoolPtr "sendreplies" o.SendReplies ++
  encOmitEmptyBool "resubmit" o.Resubmit ++
  encOmitEmptyBool "nsfw" o.NSFW ++
  encOmitEmptyBool "spoiler" o.Spoiler ++
  encOmitEmptyStr "kind" kind

/-- Go `encoding/json` decoding of a JSON value into a `string` field:
strings decode to themselves, `null` keeps the zero value, anything else is
a type error. -/
def decodeJsonString : Json → Except Err String
  | Json.str s => Except.ok s
  | Json.null => Except.ok ""
  | _ => Except.error "json: cannot unmarshal value into Go string"

/-- Decoding of an object field into a `string` struct field: a missing
field keeps the zero value. -/
def decodeStrField (fields : List (String × Json)) (k : String) :
    Except Err String :=
  match jsonLookup fields k with
  | none => Except.ok ""
  | some j => decodeJsonString j

/-- Decoding of a JSON value into the `*Submitted` pointer field `Data`:
`null` leaves the pointer nil, an object decodes the struct fields tagged
`id`, `name`, `url`, anything else is a type error. -/
def decodeSubmittedPtr : Json → Except Err (Option Submitted)
  | Json.null => Except.ok none
  | Json.obj fields => do
      let id ← decodeStrField fields "id"
      let name ← decodeStrField fields "name"
      let url ← decodeStrField fields "url"
      Except.ok (some ⟨id, name, url⟩)
  | _ => Except.error "json: cannot unmarshal value into Submitted"

/-- Decoding of a response body into `submittedLinkRoot` and projection to
`root.JSON.Data`: the nested envelope field `json`, then its pointer field
`data`; absent or null levels keep zero values (a nil `Data`). -/
def decodeSubmittedLinkRoot : Json → Except Err (Option Submitted)
  | Json.null => Except.ok none
  | Json.obj fields =>
    (match jsonLookup fields "json" with
     | none => Except.ok none
     | some Json.null => Except.ok none
     | some (Json.obj inner) =>
       (match jsonLookup inner "data" with
        | none => Except.ok none
        | some d => decodeSubmittedPtr d)
     | some _ => Except.error "json: cannot unmarshal value into struct")
  | _ => Except.error "json: cannot unmarshal value into submittedLinkRoot"

/-- Outcome of `submit` and its wrappers, mirroring the Go returns
`(*Submitted, *Response, error)` plus the requests handed to `client.Do`. -/
structure SubmitOutcome where
  sent : List Request
  submitted : Option Submitted
  err : Option Err
deriving DecidableEq

/-- The shared `submit` helper: set `api_type=json` on the encoded form,
build the POST to `api/submit`, call `client.Do` decoding into
`submittedLinkRoot`, and return `root.JSON.Data`. -/
def submit (t : Transport) (encodedForm : Values) : SubmitOutcome :=
  let form := urlValuesSet encodedForm "api_type" "json"
  match newPostForm t "api/submit" form with
  | Except.error e => ⟨[], none, some e⟩
  | Except.ok req =>
    match t.doResult req with
    | Except.error e => ⟨[req], none, some e⟩
    | Except.ok body =>
      match decodeSubmittedLinkRoot body with
      | Except.error e => ⟨[req], none, some e⟩
      | Except.ok data => ⟨[req], data, none⟩

/-- `SubmitSelf`: submit a self text post with `kind = "self"`. -/
def SubmitSelf (t : Transport) (opts : SubmitSelfOptions) : SubmitOutcome :=
  submit t (encodeSubmitSelf opts "self")

/-- `SubmitURL`: submit a link post with `kind = "link"`. -/
def SubmitURL (t : Transport) (opts : SubmitURLOptions) : SubmitOutcome :=
  submit t (encodeSubmitURL opts "link")

/-- `EnableReplies`: POST `api/sendreplies` with `id` and `state=true`. -/
def EnableReplies (t : Transport) (id : String) : ActionOutcome :=
  runPostForm t "api/sendreplies"
    (urlValuesSet (urlValuesSet [] "id" id) "state" "true")

/-- `DisableReplies`: POST `api/sendreplies` with `id` and `state=false`. -/
def DisableReplies (t : Transport) (id : String) : ActionOutcome :=
  runPostForm t "api/sendreplies"
    (urlValuesSet (urlValuesSet [] "id" id) "state" "false")

/-- `MarkNSFW`: POST `api/marknsfw` with `id`. -/
def MarkNSFW (t : Transport) (id : String) : ActionOutcome :=
  runPostForm t "api/marknsfw" (urlValuesSet [] "id" id)

/-- `UnmarkNSFW`: POST `api/unmarknsfw` with `id`. -/
def UnmarkNSFW (t : Transport) (id : String) : ActionOutcome :=
  runPostForm t "api/unmarknsfw" (urlValuesSet [] "id" id)

/-- `Spoiler`: POST `api/spoiler` with `id`. -/
def Spoiler (t : Transport) (id : String) : ActionOutcome :=
  runPostForm t "api/spoiler" (urlValuesSet [] "id" id)

/-- `Unspoiler`: POST `api/unspoiler` with `id`. -/
def Unspoiler (t : Transport) (id : String) : ActionOutcome :=
  runPostForm t "api/unspoiler" (urlValuesSet [] "id" id)

/-- `Hide`: error without any network call when no ids are given, else POST
`api/hide` with `id` set to the comma-joined ids. -/
def Hide (t : Transport) (ids : List String) : ActionOutcome :=
  if ids.length = 0 then ⟨[], some "must provide at least 1 id"⟩
  else
    runPostForm t "api/hide"
      (urlValuesSet [] "id" (String.intercalate "," ids))

/-- `Unhide`: error without any network call when no ids are given, else
POST `api/unhide` with `id` set to the comma-joined ids. -/
def Unhide (t : Transport) (ids : List String) : ActionOutcome :=
  if ids.length = 0 then ⟨[], some "must provide at least 1 id"⟩
  else
    runPostForm t "api/unhide"
      (urlValuesSet [] "id" (String.intercalate "," ids))

/-- Modelled from the spec: the wiki-page permission-level enum of the wiki
service, whose implementation file is not part of the shown sources (only
its test is). The spec lists use-subreddit-default,
approved-contributors-only, and everyone-listed-as-editor, and the test
pins the integer form of approved-contributors-only to 1. -/
inductive Permission where
  | subredditWikiPermissions : Permission
  | approvedContributorsOnly : Permission
  | everyoneListedAsEditor : Permission
deriving DecidableEq

/-- Modelled from the spec: the integer form of the permission-level enum
sent as `permlevel` (test: approved-contributors-only encodes as "1"). -/
def Permission.toInt : Permission → Int
  | Permission.subredditWikiPermissions => 0
  | Permission.approvedContributorsOnly => 1
  | Permission.everyoneListedAsEditor => 2

/-- Modelled from the spec: `WikiPageSettingsUpdateRequest` — optional
listed flag and optional permission level; only fields present are sent. -/
structure WikiPageSettingsUpdateRequest where
  Listed : Option Bool := none
  PermissionLevel : Option Permission := none

/-- Modelled from the spec: the form body of `UpdateSettings` — `permlevel`
as the integer form of the enum and `listed` as boolean-as-string, each
omitted when the corresponding field is absent from the request. -/
def updateSettingsForm (r : WikiPageSettingsUpdateRequest) : Values :=
  (match r.PermissionLevel with
   | none => []
   | some p => [("permlevel", toString p.toInt)]) ++
  (match r.Listed with
   | none => []
   | some b => [("listed", boolString b)])

/-- Modelled from the spec: `UpdateSettings` — fails with the invalid
argument error and zero network calls when the update request is nil, else
POSTs `r/{subreddit}/wiki/settings/{page}` with the form above. The decoded
`WikiPageSettings` result is not modelled: no claim concerns it. -/
def UpdateSettings (t : Transport) (subreddit page : String)
    (updateRequest : Option WikiPageSettingsUpdateRequest) : ActionOutcome :=
  match updateRequest with
  | none => ⟨[], some "updateRequest: cannot be nil"⟩
  | some r =>
    runPostForm t ("r/" ++ subreddit ++ "/wiki/settings/" ++ page)
      (updateSettingsForm r)

/-- Go `encoding/json` decoding of a `[]string` field from a JSON value:
`null` and absence keep the nil slice, an array decodes elementwise,
anything else is a type error. -/
def decodeStringList : Json → Except Err (List String)
  | Json.null => Except.ok []
  | Json.arr xs => xs.mapM decodeJsonString
  | _ => Except.error "json: cannot unmarshal value into Go slice"

/-- Modelled from the spec: decoding the listing envelope
`{"kind": ..., "data": [...]}` of `Pages` into the ordered list of page
names carried by `data`. -/
def decodeWikiPageListing : Json → Except Err (List String)
  | Json.null => Except.ok []
  | Json.obj fields =>
    (match jsonLookup fields "data" with
     | none => Except.ok []
     | some d => decodeStringList d)
  | _ => Except.error "json: cannot unmarshal value into listing"

/-- Outcome of `Pages`, mirroring the Go returns
`([]string, *Response, error)` plus the requests handed to `client.Do`. -/
structure PagesOutcome where
  sent : List Request
  pages : Option (List String)
  err : Option Err
deriving DecidableEq

/-- Modelled from the spec: `Pages` — one GET to `r/{subreddit}/wiki/pages`
whose body is decoded through the listing envelope into the ordered list of
page names. -/
def Pages (t : Transport) (subreddit : String) : PagesOutcome :=
  match newGetRequest t ("r/" ++ subreddit ++ "/wiki/pages") with
  | Except.error e => ⟨[], none, some e⟩
  | Except.ok req =>
    match t.doResult req with
    | Except.error e => ⟨[req], none, some e⟩
    | Except.ok body =>
      match decodeWikiPageListing body with
      | Except.error e => ⟨[req], none, some e⟩
      | Except.ok names => ⟨[req], some names, none⟩

/-- A transport that never fails and answers every request with the given
body; used to instantiate universally quantified theorems at a concrete,
fully successful run. -/
def pureTransport (body : Json) : Transport :=
  ⟨fun _ _ => none, fun _ => none, fun _ => Except.ok body⟩

/-- A transport whose `Do` always fails with the given message; request
construction succeeds. -/
def failingTransport (msg : Err) : Transport :=
  ⟨fun _ _ => none, fun _ => none, fun _ => Except.error msg⟩

/-! ## Helper lemmas -/

/-- Setting a key in the empty form yields the one-entry form. -/
theorem urlValuesSet_nil (k v : String) : urlValuesSet [] k v = [(k, v)] := rfl

/-- When request construction succeeds, `runPostForm` hands exactly the one
constructed POST request to `client.Do`, whatever `Do` then returns. -/
theorem runPostForm_sent_eq (t : Transport) (path : String) (form : Values)
    (h : t.postFormErr path form = none) :
    (runPostForm t path form).sent = [⟨"POST", path, form⟩] := by
  cases hdo : t.doResult ⟨"POST", path, form⟩ <;>
    simp [runPostForm, newPostForm, h, hdo]

/-- Every error `runPostForm` returns comes from request construction or
from the transport call, never from anywhere else. -/
theorem runPostForm_err_src (t : Transport) (path : String) (form : Values)
    (e : Err) (h : (runPostForm t path form).err = some e) :
    t.postFormErr path form = some e ∨
    t.doResult ⟨"POST", path, form⟩ = Except.error e := by
  cases hpf : t.postFormErr path form with
  | some e0 =>
    simp only [runPostForm, newPostForm, hpf] at h
    exact Or.inl h
  | none =>
    cases hdo : t.doResult ⟨"POST", path, form⟩ with
    | error e0 =>
      simp only [runPostForm, newPostForm, hpf, hdo] at h
      obtain rfl : e0 = e := Option.some.inj h
      exact Or.inr rfl
    | ok body =>
      simp [runPostForm, newPostForm, hpf, hdo] at h

/-- When request construction succeeds, `runPostForm` fails exactly when
the transport call fails. -/
theorem runPostForm_err_eq (t : Transport) (path : String) (form : Values)
    (h : t.postFormErr path form = none) :
    (runPostForm t path form).err =
      (match t.doResult ⟨"POST", path, form⟩ with
       | Except.error e => some e
       | Except.ok _ => none) := by
  cases hdo : t.doResult ⟨"POST", path, form⟩ <;>
    simp [runPostForm, newPostForm, h, hdo]

/-- A filter removing every entry of a key leaves nothing for `find?` on
that key. -/
theorem find?_filter_none (l : Values) (k : String) :
    List.find? (fun p => p.1 = k) (l.filter (fun p => p.1 ≠ k)) = none := by
  rw [List.find?_eq_none]
  intro x hx
  have := (List.mem_filter.1 hx).2
  simp at this ⊢
  exact this

/-- Reading back the key just written by `Set`. -/
theorem urlValuesGet_set_self (form : Values) (k v : String) :
    urlValuesGet (urlValuesSet form k v) k = some v := by
  unfold urlValuesGet urlValuesSet
  rw [List.find?_append, find?_filter_none, Option.none_or,
    List.find?_cons_of_pos _ (by simp)]
  rfl

/-- Filtering out one key leaves `find?` for a different key unchanged. -/
theorem find?_filter_ne (l : Values) (k k2 : String) (h : ¬ (k2 = k)) :
    List.find? (fun p => p.1 = k2) (l.filter (fun p => p.1 ≠ k)) =
    List.find? (fun p => p.1 = k2) l := by
  induction l with
  | nil => rfl
  | cons hd tl ih =>
    by_cases h1 : hd.1 = k
    · rw [List.filter_cons_of_neg (by simp [h1]),
        List.find?_cons_of_neg _ (by simp [h1]; exact fun hh => h hh.symm), ih]
    · by_cases h2 : hd.1 = k2
      · rw [List.filter_cons_of_pos (by simp [h1]),
          List.find?_cons_of_pos _ (by simp [h2]),
          List.find?_cons_of_pos _ (by simp [h2])]
      · rw [List.filter_cons_of_pos (by simp [h1]),
          List.find?_cons_of_neg _ (by simp [h2]),
          List.find?_cons_of_neg _ (by simp [h2]), ih]

/-- `Set` of one key does not change the value read at another key. -/
theorem urlValuesGet_set_ne (form : Values) (k v k2 : String)
    (h : ¬ (k2 = k)) :
    urlValuesGet (urlValuesSet form k v) k2 = urlValuesGet form k2 := by
  unfold urlValuesGet urlValuesSet
  rw [List.find?_append, find?_filter_ne form k k2 h,
    List.find?_cons_of_neg _ (by simp; exact fun hh => h hh.symm),
    List.find?_nil, Option.or_none]

/-- A key bound nowhere in the left part of a form is read from the right
part. -/
theorem urlValuesGet_append_right (l1 l2 : Values) (k : String)
    (h : ∀ p ∈ l1, ¬ (p.1 = k)) :
    urlValuesGet (l1 ++ l2) k = urlValuesGet l2 k := by
  unfold urlValuesGet
  rw [List.find?_append,
    List.find?_eq_none.2 (fun x hx => by simp; exact h x hx), Option.none_or]

/-! ## Claim theorems -/

/-- C1: For every non-empty list of ids, `Hide` and `Unhide` each hand
exactly one POST to the transport — to `api/hide` and `api/unhide`
respectively — whose form field `id` is the comma-joined concatenation of
the given ids in the exact order supplied (provided request construction,
which is local and fallible only in the abstract transport, succeeds). -/
theorem hide_unhide_one_post_comma_joined (t : Transport)
    (ids : List String) (hne : ids ≠ [])
    (h1 : t.postFormErr "api/hide"
      [("id", String.intercalate "," ids)] = none)
    (h2 : t.postFormErr "api/unhide"
      [("id", String.intercalate "," ids)] = none) :
    (Hide t ids).sent =
      [⟨"POST", "api/hide", [("id", String.intercalate "," ids)]⟩] ∧
    (Unhide t ids).sent =
      [⟨"POST", "api/unhide", [("id", String.intercalate "," ids)]⟩] ∧
    urlValuesGet [("id", String.intercalate "," ids)] "id" =
      some (String.intercalate "," ids) := by
  have hlen : ¬ ids.length = 0 := by
    intro hh
    exact hne (List.length_eq_zero.1 hh)
  refine ⟨?_, ?_, rfl⟩
  · unfold Hide
    rw [if_neg hlen]
    exact runPostForm_sent_eq t "api/hide" _ h1
  · unfold Unhide
    rw [if_neg hlen]
    exact runPostForm_sent_eq t "api/unhide" _ h2

/-- C1 witness: a concrete two-id run through an always-succeeding
transport sends the single POST with the ids comma-joined in order. -/
theorem hide_unhide_one_post_comma_joined_witness :
    (["t3_a", "t3_b"] : List String) ≠ [] ∧
    (Hide (pureTransport Json.null) ["t3_a", "t3_b"]).sent =
      [⟨"POST", "api/hide",
        [("id", String.intercalate "," ["t3_a", "t3_b"])]⟩] ∧
    (Unhide (pureTransport Json.null) ["t3_a", "t3_b"]).sent =
      [⟨"POST", "api/unhide",
        [("id", String.intercalate "," ["t3_a", "t3_b"])]⟩] ∧
    String.intercalate "," ["t3_a", "t3_b"] = "t3_a,t3_b" :=
  ⟨by decide,
   (hide_unhide_one_post_comma_joined (pureTransport Json.null)
     ["t3_a", "t3_b"] (by decide) rfl rfl).1,
   (hide_unhide_one_post_comma_joined (pureTransport Json.null)
     ["t3_a", "t3_b"] (by decide) rfl rfl).2.1,
   by decide⟩

/-- C2: every local precondition failure — `Hide` or `Unhide` with zero
ids, `UpdateSettings` with a nil update request — returns its error with
zero requests handed to the transport, for every transport. -/
theorem local_precondition_failures_no_request (t : Transport)
    (subreddit page : String) :
    (Hide t []).sent = [] ∧
    (Hide t []).err = some "must provide at least 1 id" ∧
    (Unhide t []).sent = [] ∧
    (Unhide t []).err = some "must provide at least 1 id" ∧
    (UpdateSettings t subreddit page none).sent = [] ∧
    (UpdateSettings t subreddit page none).err =
      some "updateRequest: cannot be nil" :=
  ⟨rfl, rfl, rfl, rfl, rfl, rfl⟩

/-- The spec's full submit response envelope. -/
def submitEnvelopeFull : Json :=
  Json.obj [("json", Json.obj [("data",
    Json.obj [("id", Json.str "abc"), ("name", Json.str "t3_abc"),
      ("url", Json.str "u")])])]

/-- The spec's submit response envelope with `data` null. -/
def submitEnvelopeNullData : Json :=
  Json.obj [("json", Json.obj [("data", Json.null)])]

/-- A submit response envelope with `data` absent. -/
def submitEnvelopeAbsentData : Json :=
  Json.obj [("json", Json.obj [])]

/-- C3: the service unwraps exactly one level of the nested
`{"json":{"data":{...}}}` envelope and returns the inner struct; on the
spec's example body the result equals
`Submitted{ID:"abc", FullID:"t3_abc", URL:"u"}`, and when `data` is null or
absent the result is the zero value of the pointer-typed result (a nil
`*Submitted`, here `none`) with no error. -/
theorem submit_envelope_single_unwrap (encodedForm : Values) :
    (∀ id name url : String,
      decodeSubmittedLinkRoot
        (Json.obj [("json", Json.obj [("data",
          Json.obj [("id", Json.str id), ("name", Json.str name),
            ("url", Json.str url)])])]) =
        Except.ok (some ⟨id, name, url⟩)) ∧
    decodeSubmittedLinkRoot submitEnvelopeFull =
      Except.ok (some ⟨"abc", "t3_abc", "u"⟩) ∧
    decodeSubmittedLinkRoot submitEnvelopeNullData = Except.ok none ∧
    decodeSubmittedLinkRoot submitEnvelopeAbsentData = Except.ok none ∧
    (submit (pureTransport submitEnvelopeFull) encodedForm).submitted =
      some ⟨"abc", "t3_abc", "u"⟩ ∧
    (submit (pureTransport submitEnvelopeFull) encodedForm).err = none ∧
    (submit (pureTransport submitEnvelopeNullData) encodedForm).submitted =
      none ∧
    (submit (pureTransport submitEnvelopeNullData) encodedForm).err = none ∧
    (submit (pureTransport submitEnvelopeAbsentData) encodedForm).submitted =
      none ∧
    (submit (pureTransport submitEnvelopeAbsentData) encodedForm).err =
      none :=
  ⟨fun _ _ _ => rfl, rfl, rfl, rfl, rfl, rfl, rfl, rfl, rfl, rfl⟩

/-- Entries produced by encoding an omitempty string field all carry its
tag as key. -/
theorem mem_encOmitEmptyStr (k v : String) (p : String × String)
    (hp : p ∈ encOmitEmptyStr k v) : p.1 = k := by
  unfold encOmitEmptyStr at hp
  split at hp <;> simp_all

/-- Entries produced by encoding an omitempty pointer-to-bool field all
carry its tag as key. -/
theorem mem_encOmitEmptyBoolPtr (k : String) (b : Option Bool)
    (p : String × String) (hp : p ∈ encOmitEmptyBoolPtr k b) : p.1 = k := by
  cases b <;> simp_all [encOmitEmptyBoolPtr]

/-- Entries produced by encoding an omitempty bool field all carry its tag
as key. -/
theorem mem_encOmitEmptyBool (k : String) (b : Bool) (p : String × String)
    (hp : p ∈ encOmitEmptyBool k b) : p.1 = k := by
  unfold encOmitEmptyBool at hp
  split at hp <;> simp_all

/-- The encoded self-post form always binds `kind`, whatever option fields
are set. -/
theorem encodeSubmitSelf_kind (o : SubmitSelfOptions) (kind : String)
    (h : ¬ kind = "") :
    urlValuesGet (encodeSubmitSelf o kind) "kind" = some kind := by
  unfold encodeSubmitSelf
  simp only [List.append_assoc]
  rw [urlValuesGet_append_right _ _ _
    (fun p hp => by rw [mem_encOmitEmptyStr _ _ p hp]; decide)]
  rw [urlValuesGet_append_right _ _ _
    (fun p hp => by rw [mem_encOmitEmptyStr _ _ p hp]; decide)]
  rw [urlValuesGet_append_right _ _ _
    (fun p hp => by rw [mem_encOmitEmptyStr _ _ p hp]; decide)]
  rw [urlValuesGet_append_right _ _ _
    (fun p hp => by rw [mem_encOmitEmptyStr _ _ p hp]; decide)]
  rw [urlValuesGet_append_right _ _ _
    (fun p hp => by rw [mem_encOmitEmptyStr _ _ p hp]; decide)]
  rw [urlValuesGet_append_right _ _ _
    (fun p hp => by rw [mem_encOmitEmptyBoolPtr _ _ p hp]; decide)]
  rw [urlValuesGet_append_right _ _ _
    (fun p hp => by rw [mem_encOmitEmptyBool _ _ p hp]; decide)]
  rw [urlValuesGet_append_right _ _ _
    (fun p hp => by rw [mem_encOmitEmptyBool _ _ p hp]; decide)]
  unfold encOmitEmptyStr urlValuesGet
  rw [if_neg h, List.find?_cons_of_pos _ (by simp)]
  rfl

/-- The encoded link-post form always binds `kind`, whatever option fields
are set. -/
theorem encodeSubmitURL_kind (o : SubmitURLOptions) (kind : String)
    (h : ¬ kind = "") :
    urlValuesGet (encodeSubmitURL o kind) "kind" = some kind := by
  unfold encodeSubmitURL
  simp only [List.append_assoc]
  rw [urlValuesGet_append_right _ _ _
    (fun p hp => by rw [mem_encOmitEmptyStr _ _ p hp]; decide)]
  rw [urlValuesGet_append_right _ _ _
    (fun p hp => by rw [mem_encOmitEmptyStr _ _ p hp]; decide)]
  rw [urlValuesGet_append_right _ _ _
    (fun p hp => by rw [mem_encOmitEmptyStr _ _ p hp]; decide)]
  rw [urlValuesGet_append_right _ _ _
    (fun p hp => by rw [mem_encOmitEmptyStr _ _ p hp]; decide)]
  rw [urlValuesGet_append_right _ _ _
    (fun p hp => by rw [mem_encOmitEmptyStr _ _ p hp]; decide)]
  rw [urlValuesGet_append_right _ _ _
    (fun p hp => by rw [mem_encOmitEmptyBoolPtr _ _ p hp]; decide)]
  rw [urlValuesGet_append_right _ _ _
    (fun p hp => by rw [mem_encOmitEmptyBool _ _ p hp]; decide)]
  rw [urlValuesGet_append_right _ _ _
    (fun p hp => by rw [mem_encOmitEmptyBool _ _ p hp]; decide)]
  rw [urlValuesGet_append_right _ _ _
    (fun p hp => by rw [mem_encOmitEmptyBool _ _ p hp]; decide)]
  unfold encOmitEmptyStr urlValuesGet
  rw [if_neg h, List.find?_cons_of_pos _ (by simp)]
  rfl

/-- When request construction succeeds, `submit` hands exactly the one
constructed POST to the transport, whatever `Do` and decoding return. -/
theorem submit_sent_eq (t : Transport) (encodedForm : Values)
    (h : t.postFormErr "api/submit"
      (urlValuesSet encodedForm "api_type" "json") = none) :
    (submit t encodedForm).sent =
      [⟨"POST", "api/submit", urlValuesSet encodedForm "api_type" "json"⟩] := by
  cases hdo : t.doResult
      ⟨"POST", "api/submit", urlValuesSet encodedForm "api_type" "json"⟩ with
  | error e => simp [submit, newPostForm, h, hdo]
  | ok body =>
    cases hdec : decodeSubmittedLinkRoot body <;>
      simp [submit, newPostForm, h, hdo, hdec]

/-- C4: for every options struct, `SubmitSelf` and `SubmitURL` POST to
`api/submit` with an encoded form that always contains `kind` (`"self"`
resp. `"link"`) and `api_type=json`, regardless of which optional option
fields are set or unset (provided request construction succeeds). -/
theorem submit_forms_contain_kind_and_api_type (t : Transport)
    (so : SubmitSelfOptions) (uo : SubmitURLOptions)
    (h1 : t.postFormErr "api/submit"
      (urlValuesSet (encodeSubmitSelf so "self") "api_type" "json") = none)
    (h2 : t.postFormErr "api/submit"
      (urlValuesSet (encodeSubmitURL uo "link") "api_type" "json") = none) :
    (SubmitSelf t so).sent = [⟨"POST", "api/submit",
      urlValuesSet (encodeSubmitSelf so "self") "api_type" "json"⟩] ∧
    urlValuesGet (urlValuesSet (encodeSubmitSelf so "self") "api_type"
      "json") "kind" = some "self" ∧
    urlValuesGet (urlValuesSet (encodeSubmitSelf so "self") "api_type"
      "json") "api_type" = some "json" ∧
    (SubmitURL t uo).sent = [⟨"POST", "api/submit",
      urlValuesSet (encodeSubmitURL uo "link") "api_type" "json"⟩] ∧
    urlValuesGet (urlValuesSet (encodeSubmitURL uo "link") "api_type"
      "json") "kind" = some "link" ∧
    urlValuesGet (urlValuesSet (encodeSubmitURL uo "link") "api_type"
      "json") "api_type" = some "json" := by
  refine ⟨submit_sent_eq t _ h1, ?_, urlValuesGet_set_self _ _ _,
    submit_sent_eq t _ h2, ?_, urlValuesGet_set_self _ _ _⟩
  · rw [urlValuesGet_set_ne _ _ _ _ (by decide)]
    exact encodeSubmitSelf_kind so "self" (by decide)
  · rw [urlValuesGet_set_ne _ _ _ _ (by decide)]
    exact encodeSubmitURL_kind uo "link" (by decide)

/-- C4 witness: a concrete run with all optional fields unset through an
always-succeeding transport. -/
theorem submit_forms_contain_kind_and_api_type_witness :
    (pureTransport Json.null).postFormErr "api/submit"
      (urlValuesSet (encodeSubmitSelf {} "self") "api_type" "json") =
      none ∧
    (pureTransport Json.null).postFormErr "api/submit"
      (urlValuesSet (encodeSubmitURL {} "link") "api_type" "json") =
      none ∧
    (SubmitSelf (pureTransport Json.null) {}).sent = [⟨"POST", "api/submit",
      urlValuesSet (encodeSubmitSelf {} "self") "api_type" "json"⟩] ∧
    urlValuesGet (urlValuesSet (encodeSubmitSelf {} "self") "api_type"
      "json") "kind" = some "self" ∧
    urlValuesGet (urlValuesSet (encodeSubmitURL {} "link") "api_type"
      "json") "kind" = some "link" :=
  ⟨rfl, rfl,
   (submit_forms_contain_kind_and_api_type (pureTransport Json.null) {} {}
     rfl rfl).1,
   (submit_forms_contain_kind_and_api_type (pureTransport Json.null) {} {}
     rfl rfl).2.1,
   (submit_forms_contain_kind_and_api_type (pureTransport Json.null) {} {}
     rfl rfl).2.2.2.2.1⟩

/-- C5: for every non-nil update request, `UpdateSettings` POSTs to
`r/{subreddit}/wiki/settings/{page}` sending only the fields present in
the request — `permlevel` as the integer form of the permission-level enum
and `listed` as a boolean-as-string; a field absent from the request is
absent from the form (provided request construction succeeds). -/
theorem updateSettings_sends_only_present_fields (t : Transport)
    (subreddit page : String) (r : WikiPageSettingsUpdateRequest)
    (h : t.postFormErr ("r/" ++ subreddit ++ "/wiki/settings/" ++ page)
      (updateSettingsForm r) = none) :
    (UpdateSettings t subreddit page (some r)).sent =
      [⟨"POST", "r/" ++ subreddit ++ "/wiki/settings/" ++ page,
        updateSettingsForm r⟩] ∧
    urlValuesGet (updateSettingsForm r) "permlevel" =
      r.PermissionLevel.map (fun p => toString p.toInt) ∧
    urlValuesGet (updateSettingsForm r) "listed" =
      r.Listed.map boolString := by
  refine ⟨runPostForm_sent_eq t _ _ h, ?_⟩
  rcases r with ⟨l, pl⟩
  rcases pl with _ | p <;> rcases l with _ | b <;> exact ⟨rfl, rfl⟩

/-- C5 witness: the test's concrete request (listed false, permission
level approved-contributors-only) through an always-succeeding transport
sends permlevel "1" and listed "false". -/
theorem updateSettings_sends_only_present_fields_witness :
    (pureTransport Json.null).postFormErr
      ("r/" ++ "testsubreddit" ++ "/wiki/settings/" ++ "testpage")
      (updateSettingsForm
        ⟨some false, some Permission.approvedContributorsOnly⟩) = none ∧
    (UpdateSettings (pureTransport Json.null) "testsubreddit" "testpage"
      (some ⟨some false, some Permission.approvedContributorsOnly⟩)).sent =
      [⟨"POST", "r/" ++ "testsubreddit" ++ "/wiki/settings/" ++ "testpage",
        updateSettingsForm
          ⟨some false, some Permission.approvedContributorsOnly⟩⟩] ∧
    updateSettingsForm
      ⟨some false, some Permission.approvedContributorsOnly⟩ =
      [("permlevel", "1"), ("listed", "false")] ∧
    urlValuesGet (updateSettingsForm ⟨some false, none⟩) "permlevel" =
      none ∧
    urlValuesGet (updateSettingsForm
      ⟨none, some Permission.approvedContributorsOnly⟩) "listed" = none :=
  ⟨rfl,
   (updateSettings_sends_only_present_fields (pureTransport Json.null)
     "testsubreddit" "testpage"
     ⟨some false, some Permission.approvedContributorsOnly⟩ rfl).1,
   by decide,
   (updateSettings_sends_only_present_fields (pureTransport Json.null)
     "testsubreddit" "testpage" ⟨some false, none⟩ rfl).2.1,
   (updateSettings_sends_only_present_fields (pureTransport Json.null)
     "testsubreddit" "testpage"
     ⟨none, some Permission.approvedContributorsOnly⟩ rfl).2.2⟩

/-- The test payload of `Pages`: a listing envelope carrying the page
names `faq` and `index` in that order. -/
def wikiPagesListingBody : Json :=
  Json.obj [("kind", Json.str "wikipagelisting"),
    ("data", Json.arr [Json.str "faq", Json.str "index"])]

/-- A list of JSON strings decodes elementwise back to the same list, in
order. -/
theorem decodeStringList_map_str (names : List String) :
    decodeStringList (Json.arr (names.map Json.str)) = Except.ok names := by
  show (names.map Json.str).mapM decodeJsonString = Except.ok names
  induction names with
  | nil => rfl
  | cons hd tl ih =>
    rw [List.map_cons, List.mapM_cons, ih]
    rfl

/-- C6: `Pages` issues at most one GET, always to
`r/{subreddit}/wiki/pages`; the listing envelope decodes to the `data`
array in order, and on the test payload a fully successful run sends
exactly the one GET and returns `["faq", "index"]` in order with no
error. -/
theorem pages_single_get_ordered (t : Transport) (subreddit : String)
    (names : List String) :
    ((Pages t subreddit).sent = [] ∨
      (Pages t subreddit).sent =
        [⟨"GET", "r/" ++ subreddit ++ "/wiki/pages", []⟩]) ∧
    decodeWikiPageListing (Json.obj [("kind", Json.str "wikipagelisting"),
      ("data", Json.arr (names.map Json.str))]) = Except.ok names ∧
    (Pages (pureTransport wikiPagesListingBody) subreddit).sent =
      [⟨"GET", "r/" ++ subreddit ++ "/wiki/pages", []⟩] ∧
    (Pages (pureTransport wikiPagesListingBody) subreddit).pages =
      some ["faq", "index"] ∧
    (Pages (pureTransport wikiPagesListingBody) subreddit).err = none := by
  refine ⟨?_, ?_, rfl, rfl, rfl⟩
  · cases hget : t.getErr ("r/" ++ subreddit ++ "/wiki/pages") with
    | some e => exact Or.inl (by simp [Pages, newGetRequest, hget])
    | none =>
      cases hdo : t.doResult ⟨"GET", "r/" ++ subreddit ++ "/wiki/pages", []⟩ with
      | error e => exact Or.inr (by simp [Pages, newGetRequest, hget, hdo])
      | ok body =>
        cases hdec : decodeWikiPageListing body <;>
          exact Or.inr (by simp [Pages, newGetRequest, hget, hdo, hdec])
  · show decodeWikiPageListing _ = _
    unfold decodeWikiPageListing jsonLookup
    simp only [List.reverse_cons, List.reverse_nil, List.nil_append,
      List.cons_append, List.find?]
    exact decodeStringList_map_str names

/-- C7: for every id, each single-id mutating method hands exactly one
POST to the transport whose form body matches its documented field set
with no extra and no omitted fields: `EnableReplies`/`DisableReplies` to
`api/sendreplies` with exactly `id` and `state` (true resp. false), and
`MarkNSFW`/`UnmarkNSFW`/`Spoiler`/`Unspoiler` to their paths with exactly
the single field `id` (provided request construction succeeds). -/
theorem single_id_methods_exact_forms (t : Transport) (id : String)
    (h1 : t.postFormErr "api/sendreplies"
      [("id", id), ("state", "true")] = none)
    (h2 : t.postFormErr "api/sendreplies"
      [("id", id), ("state", "false")] = none)
    (h3 : t.postFormErr "api/marknsfw" [("id", id)] = none)
    (h4 : t.postFormErr "api/unmarknsfw" [("id", id)] = none)
    (h5 : t.postFormErr "api/spoiler" [("id", id)] = none)
    (h6 : t.postFormErr "api/unspoiler" [("id", id)] = none) :
    (EnableReplies t id).sent =
      [⟨"POST", "api/sendreplies", [("id", id), ("state", "true")]⟩] ∧
    (DisableReplies t id).sent =
      [⟨"POST", "api/sendreplies", [("id", id), ("state", "false")]⟩] ∧
    (MarkNSFW t id).sent = [⟨"POST", "api/marknsfw", [("id", id)]⟩] ∧
    (UnmarkNSFW t id).sent = [⟨"POST", "api/unmarknsfw", [("id", id)]⟩] ∧
    (Spoiler t id).sent = [⟨"POST", "api/spoiler", [("id", id)]⟩] ∧
    (Unspoiler t id).sent = [⟨"POST", "api/unspoiler", [("id", id)]⟩] :=
  ⟨runPostForm_sent_eq t _ _ h1, runPostForm_sent_eq t _ _ h2,
   runPostForm_sent_eq t _ _ h3, runPostForm_sent_eq t _ _ h4,
   runPostForm_sent_eq t _ _ h5, runPostForm_sent_eq t _ _ h6⟩

/-- C7 witness: a concrete id through an always-succeeding transport. -/
theorem single_id_methods_exact_forms_witness :
    (pureTransport Json.null).postFormErr "api/sendreplies"
      [("id", "t3_x"), ("state", "true")] = none ∧
    (EnableReplies (pureTransport Json.null) "t3_x").sent =
      [⟨"POST", "api/sendreplies", [("id", "t3_x"), ("state", "true")]⟩] ∧
    (DisableReplies (pureTransport Json.null) "t3_x").sent =
      [⟨"POST", "api/sendreplies", [("id", "t3_x"), ("state", "false")]⟩] ∧
    (MarkNSFW (pureTransport Json.null) "t3_x").sent =
      [⟨"POST", "api/marknsfw", [("id", "t3_x")]⟩] ∧
    (UnmarkNSFW (pureTransport Json.null) "t3_x").sent =
      [⟨"POST", "api/unmarknsfw", [("id", "t3_x")]⟩] ∧
    (Spoiler (pureTransport Json.null) "t3_x").sent =
      [⟨"POST", "api/spoiler", [("id", "t3_x")]⟩] ∧
    (Unspoiler (pureTransport Json.null) "t3_x").sent =
      [⟨"POST", "api/unspoiler", [("id", "t3_x")]⟩] :=
  ⟨rfl,
   (single_id_methods_exact_forms (pureTransport Json.null) "t3_x"
     rfl rfl rfl rfl rfl rfl).1,
   (single_id_methods_exact_forms (pureTransport Json.null) "t3_x"
     rfl rfl rfl rfl rfl rfl).2.1,
   (single_id_methods_exact_forms (pureTransport Json.null) "t3_x"
     rfl rfl rfl rfl rfl rfl).2.2.1,
   (single_id_methods_exact_forms (pureTransport Json.null) "t3_x"
     rfl rfl rfl rfl rfl rfl).2.2.2.1,
   (single_id_methods_exact_forms (pureTransport Json.null) "t3_x"
     rfl rfl rfl rfl rfl rfl).2.2.2.2.1,
   (single_id_methods_exact_forms (pureTransport Json.null) "t3_x"
     rfl rfl rfl rfl rfl rfl).2.2.2.2.2⟩

/-- C8: the single-id methods perform no local validation of the id: for
every id string — the empty string included — whenever request
construction succeeds a request carrying that id verbatim is handed to the
transport, and every error any of them returns comes from request
construction or the transport call, never from a local precondition
check. -/
theorem single_id_methods_no_local_validation (t : Transport) (id : String)
    (e : Err) :
    (t.postFormErr "api/sendreplies" [("id", id), ("state", "true")] =
        none →
      (EnableReplies t id).sent.map
        (fun r => urlValuesGet r.form "id") = [some id]) ∧
    (t.postFormErr "api/sendreplies" [("id", id), ("state", "false")] =
        none →
      (DisableReplies t id).sent.map
        (fun r => urlValuesGet r.form "id") = [some id]) ∧
    (t.postFormErr "api/marknsfw" [("id", id)] = none →
      (MarkNSFW t id).sent.map
        (fun r => urlValuesGet r.form "id") = [some id]) ∧
    (t.postFormErr "api/unmarknsfw" [("id", id)] = none →
      (UnmarkNSFW t id).sent.map
        (fun r => urlValuesGet r.form "id") = [some id]) ∧
    (t.postFormErr "api/spoiler" [("id", id)] = none →
      (Spoiler t id).sent.map
        (fun r => urlValuesGet r.form "id") = [some id]) ∧
    (t.postFormErr "api/unspoiler" [("id", id)] = none →
      (Unspoiler t id).sent.map
        (fun r => urlValuesGet r.form "id") = [some id]) ∧
    ((EnableReplies t id).err = some e →
      t.postFormErr "api/sendreplies" [("id", id), ("state", "true")] =
          some e ∨
      t.doResult ⟨"POST", "api/sendreplies",
        [("id", id), ("state", "true")]⟩ = Except.error e) ∧
    ((DisableReplies t id).err = some e →
      t.postFormErr "api/sendreplies" [("id", id), ("state", "false")] =
          some e ∨
      t.doResult ⟨"POST", "api/sendreplies",
        [("id", id), ("state", "false")]⟩ = Except.error e) ∧
    ((MarkNSFW t id).err = some e →
      t.postFormErr "api/marknsfw" [("id", id)] = some e ∨
      t.doResult ⟨"POST", "api/marknsfw", [("id", id)]⟩ =
        Except.error e) ∧
    ((UnmarkNSFW t id).err = some e →
      t.postFormErr "api/unmarknsfw" [("id", id)] = some e ∨
      t.doResult ⟨"POST", "api/unmarknsfw", [("id", id)]⟩ =
        Except.error e) ∧
    ((Spoiler t id).err = some e →
      t.postFormErr "api/spoiler" [("id", id)] = some e ∨
      t.doResult ⟨"POST", "api/spoiler", [("id", id)]⟩ =
        Except.error e) ∧
    ((Unspoiler t id).err = some e →
      t.postFormErr "api/unspoiler" [("id", id)] = some e ∨
      t.doResult ⟨"POST", "api/unspoiler", [("id", id)]⟩ =
        Except.error e) :=
  ⟨fun h => by
    have hs : (EnableReplies t id).sent =
        [⟨"POST", "api/sendreplies", [("id", id), ("state", "true")]⟩] :=
      runPostForm_sent_eq t _ _ h
    rw [hs]; rfl,
   fun h => by
    have hs : (DisableReplies t id).sent =
        [⟨"POST", "api/sendreplies", [("id", id), ("state", "false")]⟩] :=
      runPostForm_sent_eq t _ _ h
    rw [hs]; rfl,
   fun h => by
    have hs : (MarkNSFW t id).sent =
        [⟨"POST", "api/marknsfw", [("id", id)]⟩] :=
      runPostForm_sent_eq t _ _ h
    rw [hs]; rfl,
   fun h => by
    have hs : (UnmarkNSFW t id).sent =
        [⟨"POST", "api/unmarknsfw", [("id", id)]⟩] :=
      runPostForm_sent_eq t _ _ h
    rw [hs]; rfl,
   fun h => by
    have hs : (Spoiler t id).sent =
        [⟨"POST", "api/spoiler", [("id", id)]⟩] :=
      runPostForm_sent_eq t _ _ h
    rw [hs]; rfl,
   fun h => by
    have hs : (Unspoiler t id).sent =
        [⟨"POST", "api/unspoiler", [("id", id)]⟩] :=
      runPostForm_sent_eq t _ _ h
    rw [hs]; rfl,
   fun h => runPostForm_err_src t _ _ e h,
   fun h => runPostForm_err_src t _ _ e h,
   fun h => runPostForm_err_src t _ _ e h,
   fun h => runPostForm_err_src t _ _ e h,
   fun h => runPostForm_err_src t _ _ e h,
   fun h => runPostForm_err_src t _ _ e h⟩

/-- C8 witness: the empty id through a transport whose `Do` always fails;
the request is still constructed and sent with the empty id verbatim, and
the returned error is traced to the transport call. -/
theorem single_id_methods_no_local_validation_witness :
    (failingTransport "boom").postFormErr "api/marknsfw" [("id", "")] =
      none ∧
    (MarkNSFW (failingTransport "boom") "").sent.map
      (fun r => urlValuesGet r.form "id") = [some ""] ∧
    (MarkNSFW (failingTransport "boom") "").err = some "boom" ∧
    ((failingTransport "boom").postFormErr "api/marknsfw" [("id", "")] =
        some "boom" ∨
      (failingTransport "boom").doResult
        ⟨"POST", "api/marknsfw", [("id", "")]⟩ = Except.error "boom") ∧
    (EnableReplies (failingTransport "boom") "").sent.map
      (fun r => urlValuesGet r.form "id") = [some ""] ∧
    ((failingTransport "boom").postFormErr "api/sendreplies"
        [("id", ""), ("state", "true")] = some "boom" ∨
      (failingTransport "boom").doResult ⟨"POST", "api/sendreplies",
        [("id", ""), ("state", "true")]⟩ = Except.error "boom") :=
  ⟨rfl,
   (single_id_methods_no_local_validation (failingTransport "boom") ""
     "boom").2.2.1 rfl,
   rfl,
   (single_id_methods_no_local_validation (failingTransport "boom") ""
     "boom").2.2.2.2.2.2.2.2.1 rfl,
   (single_id_methods_no_local_validation (failingTransport "boom") ""
     "boom").1 rfl,
   (single_id_methods_no_local_validation (failingTransport "boom") ""
     "boom").2.2.2.2.2.2.1 rfl⟩

/-- C9: for every non-empty id list, `Hide` and `Unhide` construct
identical form bodies — the single field `id` bound to the same
comma-joined string — and the requests they send differ only in the path,
`api/hide` versus `api/unhide` (provided request construction succeeds for
both paths). -/
theorem hide_unhide_identical_bodies (t : Transport) (ids : List String)
    (hne : ids ≠ [])
    (h1 : t.postFormErr "api/hide"
      [("id", String.intercalate "," ids)] = none)
    (h2 : t.postFormErr "api/unhide"
      [("id", String.intercalate "," ids)] = none) :
    ∃ form : Values,
      (Hide t ids).sent = [⟨"POST", "api/hide", form⟩] ∧
      (Unhide t ids).sent = [⟨"POST", "api/unhide", form⟩] ∧
      form = [("id", String.intercalate "," ids)] := by
  have hlen : ¬ ids.length = 0 := by
    intro hh
    exact hne (List.length_eq_zero.1 hh)
  refine ⟨[("id", String.intercalate "," ids)], ?_, ?_, rfl⟩
  · unfold Hide
    rw [if_neg hlen]
    exact runPostForm_sent_eq t "api/hide" _ h1
  · unfold Unhide
    rw [if_neg hlen]
    exact runPostForm_sent_eq t "api/unhide" _ h2

/-- C9 witness: a concrete two-id run; both requests carry the same body
and differ only in the path. -/
theorem hide_unhide_identical_bodies_witness :
    (["a", "b"] : List String) ≠ [] ∧
    (∃ form : Values,
      (Hide (pureTransport Json.null) ["a", "b"]).sent =
        [⟨"POST", "api/hide", form⟩] ∧
      (Unhide (pureTransport Json.null) ["a", "b"]).sent =
        [⟨"POST", "api/unhide", form⟩] ∧
      form = [("id", String.intercalate "," ["a", "b"])]) :=
  ⟨by decide,
   hide_unhide_identical_bodies (pureTransport Json.null) ["a", "b"]
     (by decide) rfl rfl⟩

/-- An error and a non-nil submitted result never come back together from
the shared `submit` helper. -/
theorem submit_err_none_or_submitted_none (t : Transport) (f : Values) :
    (submit t f).err = none ∨ (submit t f).submitted = none := by
  cases hpf : t.postFormErr "api/submit" (urlValuesSet f "api_type" "json")
      with
  | some e => exact Or.inr (by simp [submit, newPostForm, hpf])
  | none =>
    cases hdo : t.doResult
        ⟨"POST", "api/submit", urlValuesSet f "api_type" "json"⟩ with
    | error e => exact Or.inr (by simp [submit, newPostForm, hpf, hdo])
    | ok body =>
      cases hdec : decodeSubmittedLinkRoot body with
      | error e =>
        exact Or.inr (by simp [submit, newPostForm, hpf, hdo, hdec])
      | ok data =>
        exact Or.inl (by simp [submit, newPostForm, hpf, hdo, hdec])

/-- C10: whenever `submit` (and hence `SubmitSelf` or `SubmitURL`) returns
a non-nil error — from request construction, the transport call, or
response decoding — the returned `Submitted` is nil; a non-nil `Submitted`
comes only with a nil error. -/
theorem submit_error_implies_nil_result (t : Transport)
    (encodedForm : Values) (so : SubmitSelfOptions)
    (uo : SubmitURLOptions) :
    ((submit t encodedForm).err = none ∨
      (submit t encodedForm).submitted = none) ∧
    ((SubmitSelf t so).err = none ∨ (SubmitSelf t so).submitted = none) ∧
    ((SubmitURL t uo).err = none ∨ (SubmitURL t uo).submitted = none) :=
  ⟨submit_err_none_or_submitted_none t encodedForm,
   submit_err_none_or_submitted_none t (encodeSubmitSelf so "self"),
   submit_err_none_or_submitted_none t (encodeSubmitURL uo "link")⟩

end Geddit
